import Mathlib

/- Verification development for the gudong-backend geospatial proximity-search
subsystem.  Rust `f64` values are modelled as real numbers (ideal reals; the
claims under study do not hinge on floating-point rounding), timestamps as
integers, and the Redis / PostgreSQL stores as explicit functional state that
each modelled operation threads through.  Every definition is a direct
translation of the corresponding Rust function named in its doc comment. -/

namespace GudongBackend

open scoped Classical

noncomputable section

/-- Rust `f64::to_radians`: multiply by π / 180. -/
def toRadians (x : ℝ) : ℝ := x * Real.pi / 180

/-- Rust `f64::atan2(self = y, other = x)`: the four-quadrant arctangent.  In
`calculate_distance` it is only ever applied to non-negative arguments. -/
def atan2 (y x : ℝ) : ℝ :=
  if 0 < x then Real.arctan (y / x)
  else if x < 0 then
    (if 0 ≤ y then Real.arctan (y / x) + Real.pi else Real.arctan (y / x) - Real.pi)
  else
    (if 0 < y then Real.pi / 2 else if y < 0 then -(Real.pi / 2) else 0)

/-- `src/utils/mod.rs::calculate_distance` — the Haversine great-circle
distance in meters, Earth radius 6 371 000 m. -/
def calculate_distance (lat1 lon1 lat2 lon2 : ℝ) : ℝ :=
  let EARTH_RADIUS : ℝ := 6371000
  let lat1_rad := toRadians lat1
  let lat2_rad := toRadians lat2
  let delta_lat := toRadians (lat2 - lat1)
  let delta_lon := toRadians (lon2 - lon1)
  let a := Real.sin (delta_lat / 2) * Real.sin (delta_lat / 2)
    + Real.cos lat1_rad * Real.cos lat2_rad
      * Real.sin (delta_lon / 2) * Real.sin (delta_lon / 2)
  let c := 2 * atan2 (Real.sqrt a) (Real.sqrt (1 - a))
  EARTH_RADIUS * c

/-- The distance from a point to itself is zero. -/
theorem calculate_distance_self (lat lon : ℝ) :
    calculate_distance lat lon lat lon = 0 := by
  simp [calculate_distance, toRadians, atan2]

/-- Along the equator the Haversine distance is exactly arc length:
`R · Δλ · π / 180` for a longitude difference `Δλ ∈ [0, 180)` degrees. -/
theorem calculate_distance_equator (lon1 lon2 : ℝ) (h0 : lon1 ≤ lon2)
    (h1 : lon2 - lon1 < 180) :
    calculate_distance 0 lon1 0 lon2 = 6371000 * ((lon2 - lon1) * Real.pi / 180) := by
  have hπ : (0:ℝ) < Real.pi := Real.pi_pos
  have hd0 : 0 ≤ lon2 - lon1 := sub_nonneg.mpr h0
  have hdπ : 0 ≤ (lon2 - lon1) * Real.pi := mul_nonneg hd0 hπ.le
  have hdπ' : (lon2 - lon1) * Real.pi < 180 * Real.pi := by
    exact mul_lt_mul_of_pos_right h1 hπ
  have ht0 : 0 ≤ toRadians (lon2 - lon1) / 2 := by
    unfold toRadians; linarith
  have ht2 : toRadians (lon2 - lon1) / 2 < Real.pi / 2 := by
    unfold toRadians; linarith
  set t : ℝ := toRadians (lon2 - lon1) / 2 with htdef
  have hsin : 0 ≤ Real.sin t :=
    Real.sin_nonneg_of_nonneg_of_le_pi ht0 (by linarith)
  have hcos : 0 < Real.cos t := Real.cos_pos_of_mem_Ioo ⟨by linarith, ht2⟩
  have hsqrt1 : Real.sqrt (Real.sin t * Real.sin t) = Real.sin t :=
    Real.sqrt_mul_self hsin
  have hcs : 1 - Real.sin t * Real.sin t = Real.cos t * Real.cos t := by
    nlinarith [Real.sin_sq_add_cos_sq t]
  have hsqrt2 : Real.sqrt (1 - Real.sin t * Real.sin t) = Real.cos t := by
    rw [hcs]; exact Real.sqrt_mul_self hcos.le
  have hatan : atan2 (Real.sin t) (Real.cos t) = t := by
    unfold atan2
    rw [if_pos hcos, ← Real.tan_eq_sin_div_cos,
      Real.arctan_tan (by linarith) ht2]
  have hlat : toRadians (0 - 0) = 0 := by simp [toRadians]
  have hlat0 : toRadians 0 = 0 := by simp [toRadians]
  simp only [calculate_distance, hlat, hlat0, zero_div, Real.sin_zero, zero_mul,
    Real.cos_zero, one_mul, zero_add, ← htdef]
  rw [hsqrt1, hsqrt2, hatan]
  unfold toRadians at htdef
  rw [htdef]; ring

/-- The Haversine distance is symmetric in its two points. -/
theorem calculate_distance_symm (lat1 lon1 lat2 lon2 : ℝ) :
    calculate_distance lat1 lon1 lat2 lon2 = calculate_distance lat2 lon2 lat1 lon1 := by
  simp only [calculate_distance]
  have h1 : toRadians (lat1 - lat2) / 2 = -(toRadians (lat2 - lat1) / 2) := by
    unfold toRadians; ring
  have h2 : toRadians (lon1 - lon2) / 2 = -(toRadians (lon2 - lon1) / 2) := by
    unfold toRadians; ring
  rw [h1, h2, Real.sin_neg, Real.sin_neg]
  ring_nf

/-- Rust `f64::round`: round half away from zero. -/
def f64Round (x : ℝ) : ℝ :=
  if 0 ≤ x then ((⌊x + 1/2⌋ : ℤ) : ℝ) else -((⌊-x + 1/2⌋ : ℤ) : ℝ)

/-- The 2-decimal coordinate rounding `(x * 100.0).round() / 100.0` used to
build the coordinate-bucket cache keys. -/
def roundTo2 (x : ℝ) : ℝ := f64Round (x * 100) / 100

theorem roundTo2_zero : roundTo2 0 = 0 := by
  unfold roundTo2 f64Round
  rw [if_pos (by norm_num)]
  norm_num

theorem roundTo2_eq_zero (x : ℝ) (h0 : 0 ≤ x) (h1 : x < 1 / 200) : roundTo2 x = 0 := by
  unfold roundTo2 f64Round
  rw [if_pos (by positivity)]
  have : ⌊x * 100 + 1 / 2⌋ = 0 := by
    rw [Int.floor_eq_zero_iff]
    constructor
    · positivity
    · nlinarith
  rw [this]
  norm_num

/-- `src/routes/group/model.rs::Group` — a row of the `groups` table
(`created_at` as a Unix timestamp). -/
structure Group where
  group_id : String
  name : String
  location_name : String
  latitude : ℝ
  longitude : ℝ
  description : String
  password_hash : Option String
  creator_id : String
  created_at : ℤ
  member_count : ℤ

/-- The `WHERE latitude BETWEEN … AND longitude BETWEEN …` clause of the
bounding-box SQL query in `Group::find_by_location`. -/
def inBoundingBox (latitude longitude lat_range lon_range : ℝ) (g : Group) : Prop :=
  latitude - lat_range ≤ g.latitude ∧ g.latitude ≤ latitude + lat_range ∧
    longitude - lon_range ≤ g.longitude ∧ g.longitude ≤ longitude + lon_range

/-- The cache-miss branch of `Group::find_by_location`: the bounding-box SQL
query over the `groups` table (`db`) followed by the in-process exact
Haversine filter `calculate_distance ≤ radius`. -/
def groups_by_location_db (db : List Group) (latitude longitude radius : ℝ) :
    List Group :=
  let lat_range := radius / 111000
  let lon_range := radius / (111000 * Real.cos (toRadians latitude))
  let groups := db.filter fun g =>
    decide (inBoundingBox latitude longitude lat_range lon_range g)
  groups.filter fun g =>
    decide (calculate_distance latitude longitude g.latitude g.longitude ≤ radius)

/-- Key of the coordinate-bucketed location result cache
(`group:loc:{lat2dp}:{lon2dp}:{radius}`, and with a trailing limit for the
user/activity variants). -/
abbrev LocKey := ℝ × ℝ × ℝ

/-- `Group::find_by_location` (src/routes/group/model.rs): serve the list from
the coordinate-bucket cache when Redis is reachable and the key is present;
otherwise run the bounding-box query plus exact filter and, when Redis is
reachable, write the result back under the bucket key (TTL 120 s; expiry is
outside this sequential model).  Returns the result together with the new
bucket-cache state. -/
def Group.find_by_location (db : List Group) (cache : LocKey → Option (List Group))
    (redisUp : Bool) (latitude longitude radius : ℝ) :
    List Group × (LocKey → Option (List Group)) :=
  let cache_key : LocKey := (roundTo2 latitude, roundTo2 longitude, radius)
  match (if redisUp then cache cache_key else none) with
  | some groups => (groups, cache)
  | none =>
    let filtered_groups := groups_by_location_db db latitude longitude radius
    (filtered_groups,
      if redisUp then
        (fun k => if k = cache_key then some filtered_groups else cache k)
      else cache)

/-- Every group produced by the database bounding-box branch lies within the
requested radius as measured by the exact Haversine distance. -/
theorem mem_groups_by_location_db {db : List Group} {latitude longitude radius : ℝ}
    {g : Group} (hg : g ∈ groups_by_location_db db latitude longitude radius) :
    calculate_distance latitude longitude g.latitude g.longitude ≤ radius := by
  simp only [groups_by_location_db, List.mem_filter] at hg
  exact of_decide_eq_true hg.2

/-- Bucket-cache well-formedness: every cached list was produced by the
bounding-box branch for some query point that rounds to the bucket key. -/
def LocCacheGood (db : List Group) (cache : LocKey → Option (List Group)) : Prop :=
  ∀ k gs, cache k = some gs →
    ∃ la lo, roundTo2 la = k.1 ∧ roundTo2 lo = k.2.1 ∧
      gs = groups_by_location_db db la lo k.2.2

/-- `Group.find_by_location` preserves bucket-cache well-formedness and its
result is the bounding-box result of some query point in the same bucket. -/
theorem find_by_location_spec (db : List Group) (cache : LocKey → Option (List Group))
    (redisUp : Bool) (latitude longitude radius : ℝ)
    (hc : LocCacheGood db cache) :
    (∃ la lo, roundTo2 la = roundTo2 latitude ∧ roundTo2 lo = roundTo2 longitude ∧
        (Group.find_by_location db cache redisUp latitude longitude radius).1
          = groups_by_location_db db la lo radius) ∧
      LocCacheGood db (Group.find_by_location db cache redisUp latitude longitude radius).2 := by
  unfold Group.find_by_location
  cases hhit : (if redisUp then cache (roundTo2 latitude, roundTo2 longitude, radius) else none) with
  | some gs =>
    have hcg : cache (roundTo2 latitude, roundTo2 longitude, radius) = some gs := by
      by_cases hup : redisUp <;> simp [hup] at hhit
      · exact hhit
    obtain ⟨la, lo, h1, h2, h3⟩ := hc _ _ hcg
    exact ⟨⟨la, lo, h1, h2, by simp [hhit, h3]⟩, by simpa [hhit] using hc⟩
  | none =>
    refine ⟨⟨latitude, longitude, rfl, rfl, by simp [hhit]⟩, ?_⟩
    simp only [hhit]
    by_cases hup : redisUp
    · intro k gs hk
      simp only [hup, if_true] at hk
      by_cases hkey : k = (roundTo2 latitude, roundTo2 longitude, radius)
      · rw [if_pos hkey] at hk
        refine ⟨latitude, longitude, ?_, ?_, ?_⟩ <;> subst hkey
        · rfl
        · rfl
        · simpa using hk.symm
      · rw [if_neg hkey] at hk
        exact hc _ _ hk
    · simpa [hup] using hc

/-- A row of the `recent_locations` CTE join in
`NearbyUser::find_by_location` (src/routes/activity/model.rs),
`RawNearbyUser` in the source (`last_active` = `updated_at`, as a Unix
timestamp). -/
structure UserLocRow where
  user_id : String
  nickname : String
  latitude : ℝ
  longitude : ℝ
  updated_at : ℤ
  status : Option String
  avatar : Option String

/-- `src/routes/activity/model.rs::NearbyUser` (`last_active` as a Unix
timestamp, which also makes the `CachedNearbyUser` round trip the identity). -/
structure NearbyUser where
  user_id : String
  nickname : String
  last_active : ℤ
  latitude : ℝ
  longitude : ℝ
  distance : ℝ
  avatar : Option String
  status : String

/-- The `ORDER BY … DESC LIMIT $n` tail shared by the SQL of
`NearbyUser::find_by_location` and `UserActivity::find_recent_activities`:
sort by the given integer sort key, descending, then truncate. -/
def sqlOrderDescLimit {α : Type} (key : α → ℤ) (rows : List α) (lim : ℤ) : List α :=
  (rows.mergeSort fun a b => decide (key b ≤ key a)).take lim.toNat

/-- The in-process tail of `NearbyUser::find_by_location`: recompute the
Haversine distance per fetched row, keep rows within the radius, then sort
ascending by distance. -/
def nearby_users_compute (users : List UserLocRow) (latitude longitude radius : ℝ) :
    List NearbyUser :=
  let nearby_users := users.filterMap fun user =>
    let distance := calculate_distance latitude longitude user.latitude user.longitude
    if distance ≤ radius then
      some ⟨user.user_id, user.nickname, user.updated_at, user.latitude,
        user.longitude, distance, user.avatar, user.status.getD "在线"⟩
    else none
  nearby_users.mergeSort fun a b => decide (a.distance ≤ b.distance)

/-- Key of the `user:loc:{lat2dp}:{lon2dp}:{radius}:{limit}` result-set cache. -/
abbrev UserLocKey := ℝ × ℝ × ℝ × ℤ

/-- `NearbyUser::find_by_location`: clamp the limit
(`limit.unwrap_or(20).min(50)`), serve from the coordinate-bucket cache when
Redis is reachable and the key is present, otherwise run the SQL
(`rows` = the CTE rows; `ORDER BY updated_at DESC LIMIT`), filter and sort in
process, and write the bucket back (TTL 120 s). -/
def NearbyUser.find_by_location (rows : List UserLocRow)
    (cache : UserLocKey → Option (List NearbyUser)) (redisUp : Bool)
    (latitude longitude radius : ℝ) (limit : Option ℤ) :
    List NearbyUser × (UserLocKey → Option (List NearbyUser)) :=
  let lim := min (limit.getD 20) 50
  let cache_key : UserLocKey := (roundTo2 latitude, roundTo2 longitude, radius, lim)
  match (if redisUp then cache cache_key else none) with
  | some users => (users, cache)
  | none =>
    let fetched := sqlOrderDescLimit (fun r => r.updated_at) rows lim
    let result := nearby_users_compute fetched latitude longitude radius
    (result,
      if redisUp then
        (fun k => if k = cache_key then some result else cache k)
      else cache)

/-- A row of the `user_activities` join in
`UserActivity::find_recent_activities`, `RawUserActivity` in the source. -/
structure ActivityRow where
  activity_id : String
  user_id : String
  nickname : String
  activity_type : String
  activity_details : Option String
  latitude : ℝ
  longitude : ℝ
  created_at : ℤ
  avatar : Option String

/-- `src/routes/activity/model.rs::UserActivity`. -/
structure UserActivity where
  activity_id : String
  user_id : String
  nickname : String
  activity_type : String
  activity_details : Option String
  latitude : ℝ
  longitude : ℝ
  created_at : ℤ
  distance : ℝ
  avatar : Option String

/-- The in-process tail of `UserActivity::find_recent_activities`: recompute
the Haversine distance per fetched row, keep rows within the radius, then sort
by `created_at` DESCENDING (newest first) — not by distance. -/
def recent_activities_compute (activities : List ActivityRow)
    (latitude longitude radius : ℝ) : List UserActivity :=
  let recent_activities := activities.filterMap fun a =>
    let distance := calculate_distance latitude longitude a.latitude a.longitude
    if distance ≤ radius then
      some ⟨a.activity_id, a.user_id, a.nickname, a.activity_type,
        a.activity_details, a.latitude, a.longitude, a.created_at, distance,
        a.avatar⟩
    else none
  recent_activities.mergeSort fun a b => decide (b.created_at ≤ a.created_at)

/-- `UserActivity::find_recent_activities`: same cache-around shape as the
nearby-user query, with the `activity:` bucket key. -/
def UserActivity.find_recent_activities (rows : List ActivityRow)
    (cache : UserLocKey → Option (List UserActivity)) (redisUp : Bool)
    (latitude longitude radius : ℝ) (limit : Option ℤ) :
    List UserActivity × (UserLocKey → Option (List UserActivity)) :=
  let lim := min (limit.getD 20) 50
  let cache_key : UserLocKey := (roundTo2 latitude, roundTo2 longitude, radius, lim)
  match (if redisUp then cache cache_key else none) with
  | some activities => (activities, cache)
  | none =>
    let fetched := sqlOrderDescLimit (fun r => r.created_at) rows lim
    let result := recent_activities_compute fetched latitude longitude radius
    (result,
      if redisUp then
        (fun k => if k = cache_key then some result else cache k)
      else cache)

/-- One member of a Redis geo sorted set (`GEOADD key lon lat member`). -/
structure GeoEntry where
  member : String
  longitude : ℝ
  latitude : ℝ

/-- One `GEORADIUS … WITHDIST WITHCOORD` hit: member, stored coordinates, and
the distance expressed in the unit of the query. -/
structure GeoHit where
  member : String
  lon : ℝ
  lat : ℝ
  dist : ℝ

/-- Idealized `GEORADIUS key lon lat radius unit WITHDIST WITHCOORD`: Redis
keeps the members within great-circle distance `radius` (interpreted in the
command's unit, `unitMeters` = 1000 for `km` and 1 for `m`) and reports each
distance in that same unit.  Redis's own spherical distance is modelled by the
same exact Haversine the code uses. -/
def georadius (index : List GeoEntry) (latitude longitude radius unitMeters : ℝ) :
    List GeoHit :=
  index.filterMap fun e =>
    let d := calculate_distance latitude longitude e.latitude e.longitude
    if d ≤ radius * unitMeters then
      some ⟨e.member, e.longitude, e.latitude, d / unitMeters⟩
    else none

/-- `ActivityCacheOperations::find_nearby_users_geo`
(src/cache/operations/activity.rs): on connection failure or a GEORADIUS error
return the empty list (never an error); otherwise `GEORADIUS … radius km
WITHDIST`, then for each candidate look up the per-user snapshot (candidates
without a snapshot are silently skipped) and overwrite its `distance` field
with the index-reported distance.  No limit is applied anywhere. -/
def find_nearby_users_geo (redisOk : Bool) (index : List GeoEntry)
    (snaps : String → Option NearbyUser) (latitude longitude radius : ℝ) :
    List NearbyUser :=
  if redisOk then
    (georadius index latitude longitude radius 1000).filterMap fun hit =>
      (snaps hit.member).map fun cached_user => { cached_user with distance := hit.dist }
  else []

/-- `GroupCacheOperations::find_nearby_groups` (src/cache/operations/group.rs):
`GEORADIUS … radius m WITHDIST WITHCOORD`, then for each candidate look up the
group snapshot (candidates without one are silently skipped); when the
snapshot's coordinates differ from the index coordinates by more than 1e-4 the
index coordinates win. -/
def GroupCacheOperations.find_nearby_groups (index : List GeoEntry)
    (snaps : String → Option Group) (latitude longitude radius : ℝ) : List Group :=
  (georadius index latitude longitude radius 1).filterMap fun hit =>
    match snaps hit.member with
    | none => none
    | some cached =>
      some (if 0.0001 < |cached.latitude - hit.lat| ∨ 0.0001 < |cached.longitude - hit.lon|
        then { cached with latitude := hit.lat, longitude := hit.lon }
        else cached)

/-- The full Redis state touched by the group cache operations: the
`geo:groups` sorted set, the `group:id:{id}` snapshots, and the
`group:loc:{…}` location buckets. -/
structure GroupRedisState where
  geoIndex : List GeoEntry
  snaps : String → Option Group
  locBuckets : LocKey → Option (List Group)

/-- `GroupCacheOperations::clear_group_cache`: `ZREM` the member from the geo
index and delete the id-keyed snapshot.  The location buckets are NOT
touched. -/
def clear_group_cache (st : GroupRedisState) (group_id : String) : GroupRedisState :=
  ⟨st.geoIndex.filter fun e => decide (e.member ≠ group_id),
    fun id => if id = group_id then none else st.snaps id,
    st.locBuckets⟩

/-- `src/routes/group/model.rs::CreateGroupRequest`. -/
structure CreateGroupRequest where
  name : String
  location_name : String
  latitude : ℝ
  longitude : ℝ
  description : String
  password : Option String

/-- The relational store of record for groups: the `groups` table and the
`group_members` table.  A membership row is its `(group_id, user_id)` pair;
the `joined_at` / `last_active` timestamps play no role in the claims under
study and are dropped. -/
structure Store where
  groups : List Group
  members : List (String × String)

/-- `Group::create`: insert the group row with `member_count = 1`, then insert
exactly one membership row for the creator.  `group_id` is a fresh UUID and
`password_hash` is the bcrypt hash of the request password, both passed in
here since they are produced by external generators. -/
def Group.create (s : Store) (req : CreateGroupRequest)
    (creator_id group_id : String) (password_hash : Option String) (now : ℤ) : Store :=
  let group : Group := ⟨group_id, req.name, req.location_name, req.latitude,
    req.longitude, req.description, password_hash, creator_id, now, 1⟩
  ⟨s.groups ++ [group], s.members ++ [(group_id, creator_id)]⟩

/-- `Group::find_by_id`: read-through cache of the group row keyed by id.  On
a Redis hit return the snapshot; otherwise read the `groups` table and, when
Redis is reachable and the row exists, populate the snapshot cache (TTL
600 s). -/
def Group.find_by_id (db : List Group) (snaps : String → Option Group)
    (redisUp : Bool) (group_id : String) : Option Group × (String → Option Group) :=
  match (if redisUp then snaps group_id else none) with
  | some g => (some g, snaps)
  | none =>
    match db.find? fun g => decide (g.group_id = group_id) with
    | some g =>
      (some g,
        if redisUp then (fun id => if id = group_id then some g else snaps id) else snaps)
    | none => (none, snaps)

/-- `Group::join`, including its cache effects: look the group up through
`find_by_id` (which may populate the snapshot cache), check the password
(`verify` models `verify_password`), return `Ok` early when the user is
already a member, otherwise insert the membership row and increment
`member_count` in one transaction and finally delete the group's snapshot
key. -/
def Group.join_full (s : Store) (snaps : String → Option Group) (redisUp : Bool)
    (verify : String → String → Bool) (group_id user_id : String)
    (password : Option String) :
    Except String Unit × Store × (String → Option Group) :=
  let snaps1 := (Group.find_by_id s.groups snaps redisUp group_id).2
  match (Group.find_by_id s.groups snaps redisUp group_id).1 with
  | none => (Except.error "Row not found", s, snaps1)
  | some group =>
    let gate : Except String Unit :=
      match group.password_hash, password with
      | some _, none => Except.error "Password required to join this group"
      | some hash, some pwd =>
        if verify pwd hash then Except.ok () else Except.error "Invalid password"
      | none, _ => Except.ok ()
    match gate with
    | Except.error e => (Except.error e, s, snaps1)
    | Except.ok _ =>
      if (group_id, user_id) ∈ s.members then (Except.ok (), s, snaps1)
      else
        (Except.ok (),
          ⟨s.groups.map fun g =>
              if g.group_id = group_id then { g with member_count := g.member_count + 1 } else g,
            s.members ++ [(group_id, user_id)]⟩,
          if redisUp then (fun id => if id = group_id then none else snaps1 id) else snaps1)

/-- `Group::leave`, including its cache effects: error out when the user is
not a member (store and cache untouched), otherwise delete the membership row
and decrement `member_count` in one transaction and finally delete the
group's snapshot key. -/
def Group.leave_full (s : Store) (snaps : String → Option Group) (redisUp : Bool)
    (group_id user_id : String) :
    Except String Unit × Store × (String → Option Group) :=
  if (group_id, user_id) ∈ s.members then
    (Except.ok (),
      ⟨s.groups.map fun g =>
          if g.group_id = group_id then { g with member_count := g.member_count - 1 } else g,
        s.members.filter fun m => decide (¬(m.1 = group_id ∧ m.2 = user_id))⟩,
      if redisUp then (fun id => if id = group_id then none else snaps id) else snaps)
  else (Except.error "User not in group", s, snaps)

/-- Store well-formedness: every group's `member_count` equals the number of
its `group_members` rows, and no `(group_id, user_id)` pair occurs twice. -/
def StoreWF (s : Store) : Prop :=
  (∀ g ∈ s.groups, g.member_count = (s.members.countP fun m => decide (m.1 = g.group_id) : ℕ)) ∧
    s.members.Nodup

/-- `src/api/schema/activity.rs::GetNearbyActivitiesRequest` (`radius` and
`limit` are `u32`). -/
structure GetNearbyActivitiesRequest where
  latitude : ℝ
  longitude : ℝ
  radius : ℕ
  lim : ℕ

/-- The pre-I/O gate of `get_nearby_activities`
(src/api/operations/activity.rs): clamp the radius to the configured
`max_search_radius`, then reject with `VALIDATION_ERROR` exactly when the
latitude is outside [-90, 90] or the longitude outside [-180, 180]; on
success return the effective radius passed to the repository query. -/
def get_nearby_activities_gate (max_search_radius : ℝ)
    (params : GetNearbyActivitiesRequest) : Except String ℝ :=
  let radius := min (params.radius : ℝ) max_search_radius
  if params.latitude < -90 ∨ 90 < params.latitude ∨
      params.longitude < -180 ∨ 180 < params.longitude then
    Except.error "VALIDATION_ERROR"
  else
    Except.ok radius

/-- `Config::from_env`'s `max_search_radius` field: the parse of the
`MAX_SEARCH_RADIUS` environment variable with `unwrap_or(5000.0)` (`env` is
the parse result). -/
def config_max_search_radius (env : Option ℝ) : ℝ := env.getD 5000

/-- The per-result distance computed by `query_groups_by_location`
(src/api/handlers/group.rs): a flat planar approximation
`sqrt((Δlon·111000)² + (Δlat·111000)²)`, NOT the Haversine. -/
def handler_group_distance (qlat qlon glat glon : ℝ) : ℝ :=
  let dx := |glon - qlon| * 111000
  let dy := |glat - qlat| * 111000
  Real.sqrt (dx * dx + dy * dy)

/-- C5: a nearby-activities request is rejected with a ValidationError — by
the pure pre-I/O gate, before any repository access — if and only if the
latitude is outside [-90, 90] or the longitude outside [-180, 180]; a radius
above the configured `max_search_radius` is never a rejection cause: it is
silently clamped and the search proceeds with the clamped radius, and the
configured ceiling defaults to 5000 when the environment value does not
parse. -/
theorem C5_validation_gate (maxR : ℝ) (params : GetNearbyActivitiesRequest) :
    ((∃ e, get_nearby_activities_gate maxR params = Except.error e) ↔
      (params.latitude < -90 ∨ 90 < params.latitude ∨
        params.longitude < -180 ∨ 180 < params.longitude)) ∧
    (maxR ≤ (params.radius : ℝ) →
      ¬(params.latitude < -90 ∨ 90 < params.latitude ∨
          params.longitude < -180 ∨ 180 < params.longitude) →
      get_nearby_activities_gate maxR params = Except.ok maxR) ∧
    config_max_search_radius none = 5000 := by
  refine ⟨?_, ?_, rfl⟩
  · unfold get_nearby_activities_gate
    constructor
    · intro ⟨e, he⟩
      by_contra hbad
      rw [if_neg hbad] at he
      exact Except.noConfusion he
    · intro hbad
      rw [if_pos hbad]
      exact ⟨_, rfl⟩
  · intro hclamp hok
    unfold get_nearby_activities_gate
    rw [if_neg hok, min_eq_right hclamp]

/-- C5 witness: with `max_search_radius = 5000`, a request at (0, 0) with
radius 6000 is not rejected — it proceeds with the radius clamped to 5000. -/
theorem C5_validation_gate_witness :
    get_nearby_activities_gate 5000 ⟨0, 0, 6000, 10⟩ = Except.ok 5000 ∧
      config_max_search_radius none = 5000 :=
  ⟨(C5_validation_gate 5000 ⟨0, 0, 6000, 10⟩).2.1 (by norm_num) (by norm_num),
    (C5_validation_gate 5000 ⟨0, 0, 6000, 10⟩).2.2⟩

/-- C7: when the cache store is unreachable, the users GEO radius query
returns the empty list instead of an error; `Group::find_by_location` then
answers straight from the authoritative bounding-box query (cache untouched),
and `Group::find_by_id` answers straight from the `groups` table — index
unavailability is never surfaced as a request failure. -/
theorem C7_index_unavailable_degrades :
    (∀ index snaps latitude longitude radius,
      find_nearby_users_geo false index snaps latitude longitude radius = []) ∧
    (∀ db cache latitude longitude radius,
      Group.find_by_location db cache false latitude longitude radius =
        (groups_by_location_db db latitude longitude radius, cache)) ∧
    (∀ db snaps group_id,
      Group.find_by_id db snaps false group_id =
        (db.find? fun g => decide (g.group_id = group_id), snaps)) := by
  refine ⟨fun _ _ _ _ _ => rfl, fun db cache latitude longitude radius => rfl,
    fun db snaps group_id => ?_⟩
  unfold Group.find_by_id
  cases db.find? fun g => decide (g.group_id = group_id) <;> rfl

/-- C8 amended: `calculate_distance` is exactly the pure deterministic
Haversine `2 · 6371000 · atan2(√a, √(1−a))` with
`a = sin²(Δφ/2) + cos φ₁ · cos φ₂ · sin²(Δλ/2)` in radians, and the
users-path results carry a distance recomputed by this formula from the query
point and the row coordinates; but (see the counterexample) not every
distance returned to proximity-search callers is recomputed by it. -/
theorem C8_haversine_formula :
    (∀ lat1 lon1 lat2 lon2 : ℝ,
      calculate_distance lat1 lon1 lat2 lon2 =
        2 * 6371000 *
          atan2
            (Real.sqrt (Real.sin (toRadians (lat2 - lat1) / 2) ^ 2 +
              Real.cos (toRadians lat1) * Real.cos (toRadians lat2) *
                Real.sin (toRadians (lon2 - lon1) / 2) ^ 2))
            (Real.sqrt (1 - (Real.sin (toRadians (lat2 - lat1) / 2) ^ 2 +
              Real.cos (toRadians lat1) * Real.cos (toRadians lat2) *
                Real.sin (toRadians (lon2 - lon1) / 2) ^ 2)))) ∧
    (∀ rows latitude longitude radius u,
      u ∈ nearby_users_compute rows latitude longitude radius →
      u.distance = calculate_distance latitude longitude u.latitude u.longitude) := by
  constructor
  · intro lat1 lon1 lat2 lon2
    simp only [calculate_distance]
    ring_nf
  · intro rows latitude longitude radius u hu
    simp only [nearby_users_compute, List.mem_mergeSort, List.mem_filterMap] at hu
    obtain ⟨row, _, heq⟩ := hu
    split at heq
    · cases heq
      rfl
    · exact Option.noConfusion heq

/-- C8 witness: the users pipeline at the query point itself returns a result
whose distance field is the recomputed Haversine distance. -/
theorem C8_haversine_formula_witness :
    calculate_distance 0 0 0 0 =
      2 * 6371000 *
        atan2
          (Real.sqrt (Real.sin (toRadians (0 - 0) / 2) ^ 2 +
            Real.cos (toRadians 0) * Real.cos (toRadians 0) *
              Real.sin (toRadians (0 - 0) / 2) ^ 2))
          (Real.sqrt (1 - (Real.sin (toRadians (0 - 0) / 2) ^ 2 +
            Real.cos (toRadians 0) * Real.cos (toRadians 0) *
              Real.sin (toRadians (0 - 0) / 2) ^ 2))) :=
  (C8_haversine_formula).1 0 0 0 0

/-- C8 counterexample: for the group at (0, 1) seen from (0, 0),
`query_groups_by_location` hands the caller the planar value 111000 m, which
is NOT the Haversine distance (≈ 111194 m) — so the returned distance is not
recomputed by the exact `calculate_distance`. -/
theorem C8_counterexample :
    handler_group_distance 0 0 0 1 = 111000 ∧
      calculate_distance 0 0 0 1 ≠ handler_group_distance 0 0 0 1 := by
  have h1 : handler_group_distance 0 0 0 1 = 111000 := by
    unfold handler_group_distance
    norm_num
    rw [show (12321000000 : ℝ) = 111000 ^ 2 by norm_num, Real.sqrt_sq (by norm_num)]
  refine ⟨h1, ?_⟩
  rw [h1, calculate_distance_equator 0 1 (by norm_num) (by norm_num)]
  have hπ : (3.141592 : ℝ) < Real.pi := Real.pi_gt_d6
  intro hcontra
  nlinarith

/-- C2 amended: nearby-user results are sorted ascending by the recomputed
distance; nearby-activity results are sorted by `created_at` DESCENDING
(newest first), not by distance; and the nearby-groups list is a sublist of
the `groups` table rows in store order — no distance sort is applied to it. -/
theorem C2_ordering :
    (∀ rows latitude longitude radius,
      (nearby_users_compute rows latitude longitude radius).Pairwise
        (fun a b => a.distance ≤ b.distance)) ∧
    (∀ rows latitude longitude radius,
      (recent_activities_compute rows latitude longitude radius).Pairwise
        (fun a b => b.created_at ≤ a.created_at)) ∧
    (∀ db latitude longitude radius,
      (groups_by_location_db db latitude longitude radius).Sublist db) := by
  refine ⟨fun rows latitude longitude radius => ?_,
    fun rows latitude longitude radius => ?_,
    fun db latitude longitude radius => ?_⟩
  · have h := @List.sorted_mergeSort NearbyUser
      (fun a b : NearbyUser => decide (a.distance ≤ b.distance))
      (fun a b c hab hbc => by
        simp only [decide_eq_true_eq] at *
        exact le_trans hab hbc)
      (fun a b => by
        simp only [Bool.or_eq_true, decide_eq_true_eq]
        exact le_total a.distance b.distance)
      (rows.filterMap fun user =>
        let distance := calculate_distance latitude longitude user.latitude user.longitude
        if distance ≤ radius then
          some ⟨user.user_id, user.nickname, user.updated_at, user.latitude,
            user.longitude, distance, user.avatar, user.status.getD "在线"⟩
        else none)
    exact (h.imp fun hab => of_decide_eq_true hab)
  · have h := @List.sorted_mergeSort UserActivity
      (fun a b : UserActivity => decide (b.created_at ≤ a.created_at))
      (fun a b c hab hbc => by
        simp only [decide_eq_true_eq] at *
        exact le_trans hbc hab)
      (fun a b => by
        simp only [Bool.or_eq_true, decide_eq_true_eq]
        exact le_total b.created_at a.created_at)
      (rows.filterMap fun a =>
        let distance := calculate_distance latitude longitude a.latitude a.longitude
        if distance ≤ radius then
          some ⟨a.activity_id, a.user_id, a.nickname, a.activity_type,
            a.activity_details, a.latitude, a.longitude, a.created_at, distance,
            a.avatar⟩
        else none)
    exact (h.imp fun hab => of_decide_eq_true hab)
  · exact ((List.filter_sublist _).trans (List.filter_sublist _))

/-- C2 counterexample: two checked-in activities on the equator — one at
longitude 0.02° created at t = 200, one at longitude 0.01° created at
t = 100 — queried from (0, 0) with radius 3000 m come back newest-first,
i.e. with distances ≈ 2224 m before ≈ 1112 m: the list is NOT non-decreasing
in distance. -/
theorem C2_counterexample :
    ¬ (recent_activities_compute
        [⟨"a1", "u1", "n", "T", none, 0, 0.02, 200, none⟩,
         ⟨"a2", "u2", "n", "T", none, 0, 0.01, 100, none⟩] 0 0 3000).Pairwise
      (fun a b => a.distance ≤ b.distance) := by
  have hπ : (3.14 : ℝ) < Real.pi := Real.pi_gt_d2
  have hπ' : Real.pi < 3.15 := Real.pi_lt_d2
  have eA : calculate_distance 0 0 0 0.02 = 6371000 * ((0.02 - 0) * Real.pi / 180) :=
    calculate_distance_equator 0 0.02 (by norm_num) (by norm_num)
  have eB : calculate_distance 0 0 0 0.01 = 6371000 * ((0.01 - 0) * Real.pi / 180) :=
    calculate_distance_equator 0 0.01 (by norm_num) (by norm_num)
  have hA : calculate_distance 0 0 0 0.02 ≤ 3000 := by rw [eA]; nlinarith
  have hB : calculate_distance 0 0 0 0.01 ≤ 3000 := by rw [eB]; nlinarith
  have hBA : calculate_distance 0 0 0 0.01 < calculate_distance 0 0 0 0.02 := by
    rw [eA, eB]; nlinarith
  intro hpair
  have hlist : recent_activities_compute
      [⟨"a1", "u1", "n", "T", none, 0, 0.02, 200, none⟩,
       ⟨"a2", "u2", "n", "T", none, 0, 0.01, 100, none⟩] 0 0 3000 =
      [⟨"a1", "u1", "n", "T", none, 0, 0.02, 200, calculate_distance 0 0 0 0.02, none⟩,
       ⟨"a2", "u2", "n", "T", none, 0, 0.01, 100, calculate_distance 0 0 0 0.01, none⟩] := by
    simp only [recent_activities_compute, List.filterMap_cons, List.filterMap_nil]
    rw [if_pos hA, if_pos hB]
    simp [List.mergeSort, List.merge]
  rw [hlist] at hpair
  have := (List.pairwise_cons.mp hpair).1 _ (List.mem_cons_self _ _)
  simp only at this
  exact absurd this (not_le.mpr hBA)

/-- Result-set-cache well-formedness for the users/activities buckets: every
cached list is no longer than the limit recorded in its key. -/
def ResultCacheGood {α : Type} (cache : UserLocKey → Option (List α)) : Prop :=
  ∀ k xs, cache k = some xs → xs.length ≤ k.2.2.2.toNat

theorem filterMap_replicate_some {α β : Type} {f : α → Option β} {e : α} {b : β}
    (h : f e = some b) (n : ℕ) :
    (List.replicate n e).filterMap f = List.replicate n b := by
  induction n with
  | zero => rfl
  | succ n ih => simp [List.replicate_succ, List.filterMap_cons, h, ih]

theorem length_filterMap_replicate {α β : Type} (f : α → Option β) {e : α} {b : β}
    (h : f e = some b) (n : ℕ) :
    ((List.replicate n e).filterMap f).length = n := by
  rw [filterMap_replicate_some h, List.length_replicate]

theorem length_nearby_users_compute_le (users : List UserLocRow)
    (latitude longitude radius : ℝ) :
    (nearby_users_compute users latitude longitude radius).length ≤ users.length := by
  unfold nearby_users_compute
  rw [List.length_mergeSort]
  exact List.length_filterMap_le _ _

theorem length_recent_activities_compute_le (rows : List ActivityRow)
    (latitude longitude radius : ℝ) :
    (recent_activities_compute rows latitude longitude radius).length ≤ rows.length := by
  unfold recent_activities_compute
  rw [List.length_mergeSort]
  exact List.length_filterMap_le _ _

theorem length_sqlOrderDescLimit_le {α : Type} (key : α → ℤ) (rows : List α) (lim : ℤ) :
    (sqlOrderDescLimit key rows lim).length ≤ lim.toNat := by
  unfold sqlOrderDescLimit
  rw [List.length_take, List.length_mergeSort]
  exact min_le_left _ _

/-- C6 amended: on the users and activities search paths the returned list
never exceeds the clamped limit `min (limit.unwrap_or 20) 50` — the SQL
`LIMIT` bounds the fresh path and the bucket key records the clamped limit so
cache hits are bounded by the same value, and the bucket cache invariant is
preserved; the Redis GEO helper paths, by contrast, apply no limit at all
(see the counterexample). -/
theorem C6_limit_respected :
    (∀ rows cache redisUp latitude longitude radius limit, ResultCacheGood cache →
      (NearbyUser.find_by_location rows cache redisUp latitude longitude radius limit).1.length
          ≤ (min (limit.getD 20) 50).toNat ∧
        ResultCacheGood
          (NearbyUser.find_by_location rows cache redisUp latitude longitude radius limit).2) ∧
    (∀ rows cache redisUp latitude longitude radius limit, ResultCacheGood cache →
      (UserActivity.find_recent_activities rows cache redisUp latitude longitude radius limit).1.length
          ≤ (min (limit.getD 20) 50).toNat ∧
        ResultCacheGood
          (UserActivity.find_recent_activities rows cache redisUp latitude longitude radius limit).2) := by
  constructor
  · intro rows cache redisUp latitude longitude radius limit hc
    unfold NearbyUser.find_by_location
    cases hhit : (if redisUp then
        cache (roundTo2 latitude, roundTo2 longitude, radius, min (limit.getD 20) 50) else none) with
    | some users =>
      have hcg : cache (roundTo2 latitude, roundTo2 longitude, radius,
          min (limit.getD 20) 50) = some users := by
        by_cases hup : redisUp <;> simp [hup] at hhit
        · exact hhit
      exact ⟨by simpa [hhit] using hc _ _ hcg, by simpa [hhit] using hc⟩
    | none =>
      have hlen : (nearby_users_compute
          (sqlOrderDescLimit (fun r => r.updated_at) rows (min (limit.getD 20) 50))
          latitude longitude radius).length ≤ (min (limit.getD 20) 50).toNat :=
        le_trans (length_nearby_users_compute_le _ _ _ _)
          (length_sqlOrderDescLimit_le _ _ _)
      refine ⟨by simpa [hhit] using hlen, ?_⟩
      simp only [hhit]
      by_cases hup : redisUp
      · intro k xs hk
        simp only [hup, if_true] at hk
        by_cases hkey : k = (roundTo2 latitude, roundTo2 longitude, radius,
            min (limit.getD 20) 50)
        · rw [if_pos hkey] at hk
          subst hkey
          cases hk
          exact hlen
        · rw [if_neg hkey] at hk
          exact hc _ _ hk
      · simpa [hup] using hc
  · intro rows cache redisUp latitude longitude radius limit hc
    unfold UserActivity.find_recent_activities
    cases hhit : (if redisUp then
        cache (roundTo2 latitude, roundTo2 longitude, radius, min (limit.getD 20) 50) else none) with
    | some acts =>
      have hcg : cache (roundTo2 latitude, roundTo2 longitude, radius,
          min (limit.getD 20) 50) = some acts := by
        by_cases hup : redisUp <;> simp [hup] at hhit
        · exact hhit
      exact ⟨by simpa [hhit] using hc _ _ hcg, by simpa [hhit] using hc⟩
    | none =>
      have hlen : (recent_activities_compute
          (sqlOrderDescLimit (fun r => r.created_at) rows (min (limit.getD 20) 50))
          latitude longitude radius).length ≤ (min (limit.getD 20) 50).toNat :=
        le_trans (length_recent_activities_compute_le _ _ _ _)
          (length_sqlOrderDescLimit_le _ _ _)
      refine ⟨by simpa [hhit] using hlen, ?_⟩
      simp only [hhit]
      by_cases hup : redisUp
      · intro k xs hk
        simp only [hup, if_true] at hk
        by_cases hkey : k = (roundTo2 latitude, roundTo2 longitude, radius,
            min (limit.getD 20) 50)
        · rw [if_pos hkey] at hk
          subst hkey
          cases hk
          exact hlen
        · rw [if_neg hkey] at hk
          exact hc _ _ hk
      · simpa [hup] using hc

/-- C6 witness: a search over no rows with an empty, well-formed cache
returns at most the default limit of 20 results, on both the users and the
activities path. -/
theorem C6_limit_respected_witness :
    (NearbyUser.find_by_location [] (fun _ => none) true 0 0 100 none).1.length ≤ 20 ∧
      (UserActivity.find_recent_activities [] (fun _ => none) true 0 0 100 none).1.length ≤ 20 := by
  have hgood : ResultCacheGood (α := NearbyUser) (fun _ => none) := by
    intro k xs hk
    exact Option.noConfusion hk
  have hgood' : ResultCacheGood (α := UserActivity) (fun _ => none) := by
    intro k xs hk
    exact Option.noConfusion hk
  have h1 := (C6_limit_respected.1 [] (fun _ => none) true 0 0 100 none hgood).1
  have h2 := (C6_limit_respected.2 [] (fun _ => none) true 0 0 100 none hgood').1
  constructor
  · simpa using h1
  · simpa using h2

/-- C6 counterexample: the Redis GEO users path applies no limit — with 21
index entries at the query point (all with snapshots) it returns 21 results,
exceeding both the default limit 20 and any requested cap. -/
theorem C6_counterexample :
    (find_nearby_users_geo true (List.replicate 21 ⟨"u1", 0, 0⟩)
        (fun _ => some ⟨"u1", "n", 0, 0, 0, 0, none, "s"⟩) 0 0 1).length = 21 ∧
      ¬ ((21 : ℕ) ≤ 20) := by
  refine ⟨?_, by norm_num⟩
  unfold find_nearby_users_geo georadius
  rw [if_pos rfl]
  have hgeo : ((List.replicate 21 (⟨"u1", 0, 0⟩ : GeoEntry)).filterMap fun e =>
      let d := calculate_distance 0 0 e.latitude e.longitude
      if d ≤ 1 * 1000 then some (⟨e.member, e.longitude, e.latitude, d / 1000⟩ : GeoHit)
      else none) =
      List.replicate 21 ⟨"u1", 0, 0, 0⟩ := by
    refine filterMap_replicate_some ?_ 21
    show (if calculate_distance 0 0 (0:ℝ) (0:ℝ) ≤ 1 * 1000 then
        some (⟨"u1", (0:ℝ), (0:ℝ), calculate_distance 0 0 (0:ℝ) (0:ℝ) / 1000⟩ : GeoHit)
      else none) = some ⟨"u1", 0, 0, 0⟩
    rw [calculate_distance_self]
    norm_num
  rw [hgeo]
  exact length_filterMap_replicate _ rfl 21

theorem countP_split {α : Type} (p q : α → Bool) (l : List α) :
    l.countP p = (l.filter q).countP p + (l.filter fun a => !q a).countP p := by
  induction l with
  | nil => rfl
  | cons a l ih =>
    by_cases hq : q a = true <;> by_cases hp : p a = true <;>
      simp [List.filter_cons, List.countP_cons, hq, hp, ih] <;> omega

theorem countP_eq_one_of_nodup_mem {α : Type} [DecidableEq α] {l : List α} {x : α}
    (hn : l.Nodup) (hm : x ∈ l) :
    l.countP (fun a => decide (a = x)) = 1 := by
  induction l with
  | nil => cases hm
  | cons a l ih =>
    rw [List.countP_cons]
    rcases List.mem_cons.mp hm with h | hm'
    · have h0 : l.countP (fun b => decide (b = x)) = 0 := by
        rw [List.countP_eq_zero]
        intro b hb
        simp only [decide_eq_true_eq]
        intro hbx
        exact (List.nodup_cons.mp hn).1 (h ▸ hbx ▸ hb)
      simp [h0, h.symm]
    · have hrec := ih (List.nodup_cons.mp hn).2 hm'
      have ha : ¬(a = x) := fun h => (List.nodup_cons.mp hn).1 (h ▸ hm')
      simp [hrec, ha]

/-- The post-transaction store of `Group::join`'s insert + increment preserves
the member-count invariant when the membership row was absent. -/
theorem StoreWF_joinTx (s : Store) (hwf : StoreWF s) (group_id user_id : String)
    (hm : (group_id, user_id) ∉ s.members) :
    StoreWF ⟨s.groups.map fun g =>
        if g.group_id = group_id then { g with member_count := g.member_count + 1 } else g,
      s.members ++ [(group_id, user_id)]⟩ := by
  obtain ⟨hcount, hnodup⟩ := hwf
  constructor
  · intro g' hg'
    obtain ⟨g, hg, rfl⟩ := List.mem_map.mp hg'
    by_cases hid : g.group_id = group_id
    · rw [if_pos hid]
      show g.member_count + 1 = ((s.members ++ [(group_id, user_id)]).countP
        fun m => decide (m.1 = g.group_id) : ℕ)
      rw [List.countP_append, List.countP_cons, List.countP_nil]
      have hpone : (decide ((group_id, user_id).1 = g.group_id)) = true := by
        simp [hid]
      rw [hcount g hg]
      simp [hpone]
    · rw [if_neg hid]
      show g.member_count = ((s.members ++ [(group_id, user_id)]).countP
        fun m => decide (m.1 = g.group_id) : ℕ)
      rw [List.countP_append, List.countP_cons, List.countP_nil]
      have hpz : (decide ((group_id, user_id).1 = g.group_id)) = false := by
        simp only [decide_eq_false_iff_not]
        exact fun h => hid h.symm
      rw [hcount g hg]
      simp [hpz]
  · rw [List.nodup_append]
    exact ⟨hnodup, List.nodup_singleton _, by
      intro x hx hx'
      rw [List.mem_singleton] at hx'
      exact hm (hx' ▸ hx)⟩

/-- The post-transaction store of `Group::leave`'s delete + decrement
preserves the member-count invariant when the membership row was present. -/
theorem StoreWF_leaveTx (s : Store) (hwf : StoreWF s) (group_id user_id : String)
    (hm : (group_id, user_id) ∈ s.members) :
    StoreWF ⟨s.groups.map fun g =>
        if g.group_id = group_id then { g with member_count := g.member_count - 1 } else g,
      s.members.filter fun m => decide (¬(m.1 = group_id ∧ m.2 = user_id))⟩ := by
  obtain ⟨hcount, hnodup⟩ := hwf
  constructor
  · intro g' hg'
    obtain ⟨g, hg, rfl⟩ := List.mem_map.mp hg'
    have hq : ∀ m : String × String,
        (decide (¬(m.1 = group_id ∧ m.2 = user_id))) = !(decide (m = (group_id, user_id))) := by
      intro m
      by_cases hmx : m = (group_id, user_id)
      · subst hmx; simp
      · have : ¬(m.1 = group_id ∧ m.2 = user_id) := by
          intro ⟨h1, h2⟩
          exact hmx (Prod.ext h1 h2)
        simp [hmx, this]
    by_cases hid : g.group_id = group_id
    · rw [if_pos hid]
      show g.member_count - 1 =
        ((s.members.filter fun m => decide (¬(m.1 = group_id ∧ m.2 = user_id))).countP
          fun m => decide (m.1 = g.group_id) : ℕ)
      have hsplit := countP_split (fun m : String × String => decide (m.1 = g.group_id))
        (fun m => decide (m = (group_id, user_id))) s.members
      have hfq : (s.members.filter fun m => decide (m = (group_id, user_id))).countP
          (fun m => decide (m.1 = g.group_id)) =
          (s.members.filter fun m => decide (m = (group_id, user_id))).length := by
        rw [List.countP_eq_length]
        intro m hmf
        have hmq : m = (group_id, user_id) := by
          have h := List.of_mem_filter hmf
          simpa using h
        subst hmq
        simp [hid]
      have hflen : (s.members.filter fun m => decide (m = (group_id, user_id))).length = 1 := by
        rw [← List.countP_eq_length_filter]
        exact countP_eq_one_of_nodup_mem hnodup hm
      have hfilters : (s.members.filter fun m => decide (¬(m.1 = group_id ∧ m.2 = user_id))) =
          (s.members.filter fun m => !(decide (m = (group_id, user_id)))) :=
        List.filter_congr fun m _ => hq m
      rw [hfilters, hcount g hg]
      omega
    · rw [if_neg hid]
      show g.member_count =
        ((s.members.filter fun m => decide (¬(m.1 = group_id ∧ m.2 = user_id))).countP
          fun m => decide (m.1 = g.group_id) : ℕ)
      rw [List.countP_filter, hcount g hg]
      congr 1
      refine List.countP_congr fun m hmm => ?_
      simp only [Bool.and_eq_true, decide_eq_true_eq]
      constructor
      · intro h
        refine ⟨h, fun hc => hid ?_⟩
        rw [← h]
        exact hc.1
      · intro h
        exact h.1
  · exact List.Nodup.filter _ hnodup

/-- C9: the stored `member_count` always equals the number of
`group_members` rows for the group — `Group::create` writes `member_count = 1`
together with exactly one membership row (for the fresh UUID), `Group::join`
inserts the row and increments the count inside one transaction, and
`Group::leave` deletes the row and decrements the count inside one
transaction, so under sequential execution every operation preserves the
equality (together with row uniqueness). -/
theorem C9_member_count_invariant (s : Store) (hwf : StoreWF s) :
    (∀ req creator_id group_id password_hash now,
      group_id ∉ s.groups.map Group.group_id →
      (∀ u, (group_id, u) ∉ s.members) →
      StoreWF (Group.create s req creator_id group_id password_hash now)) ∧
    (∀ snaps redisUp verify group_id user_id password,
      StoreWF (Group.join_full s snaps redisUp verify group_id user_id password).2.1) ∧
    (∀ snaps redisUp group_id user_id,
      StoreWF (Group.leave_full s snaps redisUp group_id user_id).2.1) := by
  obtain ⟨hcount, hnodup⟩ := hwf
  refine ⟨?_, ?_, ?_⟩
  · intro req creator_id group_id password_hash now hfresh1 hfresh2
    constructor
    · intro g hg
      rcases List.mem_append.mp hg with hg' | hg'
      · show g.member_count =
          ((s.members ++ [(group_id, creator_id)]).countP fun m => decide (m.1 = g.group_id) : ℕ)
        rw [List.countP_append, List.countP_cons, List.countP_nil]
        have hne : ¬((group_id, creator_id).1 = g.group_id) := by
          intro h
          refine hfresh1 ?_
          rw [show group_id = g.group_id from h]
          exact List.mem_map_of_mem Group.group_id hg'
        rw [hcount g hg']
        simp [hne]
      · rw [List.mem_singleton] at hg'
        subst hg'
        show (1 : ℤ) =
          ((s.members ++ [(group_id, creator_id)]).countP fun m => decide (m.1 = group_id) : ℕ)
        rw [List.countP_append, List.countP_cons, List.countP_nil]
        have h0 : (s.members.countP fun m => decide (m.1 = group_id)) = 0 := by
          rw [List.countP_eq_zero]
          intro m hm
          simp only [decide_eq_true_eq]
          intro h1
          exact hfresh2 m.2 (by rw [← h1, Prod.mk.eta]; exact hm)
        simp [h0]
    · show (s.members ++ [(group_id, creator_id)]).Nodup
      rw [List.nodup_append]
      exact ⟨hnodup, List.nodup_singleton _, by
        intro x hx hx'
        rw [List.mem_singleton] at hx'
        exact hfresh2 creator_id (hx' ▸ hx)⟩
  · intro snaps redisUp verify group_id user_id password
    simp only [Group.join_full]
    split
    · exact ⟨hcount, hnodup⟩
    · split
      · exact ⟨hcount, hnodup⟩
      · split
        · exact ⟨hcount, hnodup⟩
        · rename_i hm
          exact StoreWF_joinTx s ⟨hcount, hnodup⟩ _ _ hm
  · intro snaps redisUp group_id user_id
    unfold Group.leave_full
    by_cases hm : (group_id, user_id) ∈ s.members
    · rw [if_pos hm]
      exact StoreWF_leaveTx s ⟨hcount, hnodup⟩ group_id user_id hm
    · rw [if_neg hm]
      exact ⟨hcount, hnodup⟩

/-- C9 witness: starting from a well-formed one-group store, creating a fresh
group, joining it, and leaving a group all preserve the invariant at concrete
inputs. -/
theorem C9_member_count_invariant_witness :
    StoreWF (Group.create ⟨[⟨"g1", "n", "l", 0, 0, "d", none, "u1", 0, 1⟩], [("g1", "u1")]⟩
      ⟨"n2", "l2", 0, 0, "d2", none⟩ "u2" "g2" none 5) := by
  have hwf : StoreWF ⟨[⟨"g1", "n", "l", 0, 0, "d", none, "u1", 0, 1⟩], [("g1", "u1")]⟩ := by
    constructor
    · intro g hg
      rw [List.mem_singleton] at hg
      subst hg
      rfl
    · exact List.nodup_singleton _
  refine (C9_member_count_invariant _ hwf).1 ⟨"n2", "l2", 0, 0, "d2", none⟩ "u2" "g2" none 5 ?_ ?_
  · intro hmem
    rw [List.map_singleton, List.mem_singleton] at hmem
    exact absurd hmem (by decide)
  · intro u hmem
    rw [List.mem_singleton] at hmem
    have : "g2" = "g1" := congrArg Prod.fst hmem
    exact absurd this (by decide)

theorem find_by_id_snaps_spec (db : List Group) (snaps : String → Option Group)
    (redisUp : Bool) (group_id : String) :
    (Group.find_by_id db snaps redisUp group_id).2 group_id = snaps group_id ∨
      (Group.find_by_id db snaps redisUp group_id).2 group_id =
        (Group.find_by_id db snaps redisUp group_id).1 := by
  unfold Group.find_by_id
  split
  · left; rfl
  · split
    · by_cases hup : redisUp = true
      · right; simp [hup]
      · left; simp [hup]
    · left; rfl

/-- C10 amended: joining a group the user is already a member of, when the
password check passes (the group has no password, or the supplied password
verifies against its hash), returns success with the store unchanged — no
membership row inserted, no member_count change, and the group's snapshot
cache key is not deleted; the only cache effect is that the preceding
`find_by_id` lookup may populate the group's own snapshot key on a cache miss
(no other key changes, and the populated value is the looked-up group).
Leaving a group the user is not a member of returns an error with store and
cache unchanged. -/
theorem C10_join_idempotent_leave_strict (s : Store) (snaps : String → Option Group)
    (redisUp : Bool) (verify : String → String → Bool) (group_id user_id : String)
    (password : Option String) (group : Group)
    (hfind : (Group.find_by_id s.groups snaps redisUp group_id).1 = some group)
    (hpass : group.password_hash = none ∨
      ∃ hash pwd, group.password_hash = some hash ∧ password = some pwd ∧
        verify pwd hash = true)
    (hmem : (group_id, user_id) ∈ s.members) :
    Group.join_full s snaps redisUp verify group_id user_id password =
        (Except.ok (), s, (Group.find_by_id s.groups snaps redisUp group_id).2) ∧
      (∀ id, id ≠ group_id →
        (Group.find_by_id s.groups snaps redisUp group_id).2 id = snaps id) ∧
      ((Group.find_by_id s.groups snaps redisUp group_id).2 group_id = snaps group_id ∨
        (Group.find_by_id s.groups snaps redisUp group_id).2 group_id = some group) ∧
      (∀ uid2, (group_id, uid2) ∉ s.members →
        Group.leave_full s snaps redisUp group_id uid2 =
          (Except.error "User not in group", s, snaps)) := by
  refine ⟨?_, ?_, ?_, ?_⟩
  · rcases hpass with hpw | ⟨hash, pwd, h1, h2, h3⟩
    · simp only [Group.join_full, hfind, hpw, hmem, if_true]
    · subst h2
      simp [Group.join_full, hfind, h1, h3, hmem]
  · intro id hid
    unfold Group.find_by_id
    split
    · rfl
    · split
      · by_cases hup : redisUp = true
        · simp [hup, hid]
        · simp [hup]
      · rfl
  · rcases find_by_id_snaps_spec s.groups snaps redisUp group_id with h | h
    · exact Or.inl h
    · exact Or.inr (by rw [h, hfind])
  · intro uid2 h
    unfold Group.leave_full
    rw [if_neg h]

/-- C10 witness: in a store where `u1` is already a member of the
password-protected group `g1` (whose snapshot is cached) and supplies a
password that verifies, a repeated join returns success with store and cache
untouched. -/
theorem C10_join_idempotent_leave_strict_witness :
    Group.join_full ⟨[⟨"g1", "n", "l", 0, 0, "d", some "h", "u1", 0, 1⟩], [("g1", "u1")]⟩
        (fun id => if id = "g1" then some ⟨"g1", "n", "l", 0, 0, "d", some "h", "u1", 0, 1⟩ else none)
        true (fun _ _ => true) "g1" "u1" (some "p") =
      (Except.ok (), ⟨[⟨"g1", "n", "l", 0, 0, "d", some "h", "u1", 0, 1⟩], [("g1", "u1")]⟩,
        (Group.find_by_id [⟨"g1", "n", "l", 0, 0, "d", some "h", "u1", 0, 1⟩]
          (fun id => if id = "g1" then some ⟨"g1", "n", "l", 0, 0, "d", some "h", "u1", 0, 1⟩ else none)
          true "g1").2) :=
  (C10_join_idempotent_leave_strict
    ⟨[⟨"g1", "n", "l", 0, 0, "d", some "h", "u1", 0, 1⟩], [("g1", "u1")]⟩
    (fun id => if id = "g1" then some ⟨"g1", "n", "l", 0, 0, "d", some "h", "u1", 0, 1⟩ else none)
    true (fun _ _ => true) "g1" "u1" (some "p")
    ⟨"g1", "n", "l", 0, 0, "d", some "h", "u1", 0, 1⟩
    (by simp [Group.find_by_id]) (Or.inr ⟨"h", "p", rfl, rfl, rfl⟩) (by simp)).1

/-- C10 counterexample: with an EMPTY snapshot cache, joining a group the
user is already a member of does return success with the store unchanged —
but it does touch the cache: the `find_by_id` read-through populates the
`group:id:g1` snapshot key, so the cache state after the call differs from
the cache state before it. -/
theorem C10_counterexample :
    ((Group.join_full ⟨[⟨"g1", "n", "l", 0, 0, "d", none, "u1", 0, 1⟩], [("g1", "u1")]⟩
        (fun _ => none) true (fun _ _ => true) "g1" "u1" none).1 = Except.ok () ∧
      (Group.join_full ⟨[⟨"g1", "n", "l", 0, 0, "d", none, "u1", 0, 1⟩], [("g1", "u1")]⟩
        (fun _ => none) true (fun _ _ => true) "g1" "u1" none).2.1 =
          ⟨[⟨"g1", "n", "l", 0, 0, "d", none, "u1", 0, 1⟩], [("g1", "u1")]⟩) ∧
    (Group.join_full ⟨[⟨"g1", "n", "l", 0, 0, "d", none, "u1", 0, 1⟩], [("g1", "u1")]⟩
        (fun _ => none) true (fun _ _ => true) "g1" "u1" none).2.2 "g1" ≠
      (fun _ : String => (none : Option Group)) "g1" := by
  refine ⟨⟨?_, ?_⟩, ?_⟩
  · rfl
  · rfl
  · simp [Group.join_full, Group.find_by_id]

theorem toRadians_zero : toRadians 0 = 0 := by simp [toRadians]

/-- When every group's snapshot is live and equal to its store row and the
geo index holds the store coordinates, the indexed path is exactly the
Haversine filter of the store. -/
theorem find_nearby_groups_eq_filter (snaps : String → Option Group)
    (latitude longitude radius : ℝ) (db : List Group)
    (hsnap : ∀ g ∈ db, snaps g.group_id = some g) :
    GroupCacheOperations.find_nearby_groups
        (db.map fun g => ⟨g.group_id, g.longitude, g.latitude⟩) snaps latitude longitude radius
      = db.filter fun g =>
          decide (calculate_distance latitude longitude g.latitude g.longitude ≤ radius) := by
  induction db with
  | nil => rfl
  | cons g l ih =>
    have ihl := ih fun x hx => hsnap x (List.mem_cons_of_mem _ hx)
    unfold GroupCacheOperations.find_nearby_groups georadius at ihl ⊢
    rw [List.map_cons]
    simp only [List.filterMap_cons]
    by_cases hd : calculate_distance latitude longitude g.latitude g.longitude ≤ radius
    · rw [if_pos (by rw [mul_one]; exact hd)]
      simp only [List.filterMap_cons]
      rw [hsnap g (List.mem_cons_self g l)]
      simp only []
      rw [if_neg (by simp only [sub_self, abs_zero]; norm_num),
        @List.filter_cons_of_pos Group
          (fun x => decide (calculate_distance latitude longitude x.latitude x.longitude ≤ radius))
          g l (decide_eq_true hd), ihl]
    · rw [if_neg (by rw [mul_one]; exact hd),
        @List.filter_cons_of_neg Group
          (fun x => decide (calculate_distance latitude longitude x.latitude x.longitude ≤ radius))
          g l (by simpa using hd), ihl]

/-- When the bounding box covers every point within the radius, the
bounding-box query followed by the exact filter is exactly the Haversine
filter of the store. -/
theorem groups_by_location_db_eq_filter (latitude longitude radius : ℝ)
    (db : List Group)
    (hbox : ∀ g ∈ db, calculate_distance latitude longitude g.latitude g.longitude ≤ radius →
      inBoundingBox latitude longitude (radius / 111000)
        (radius / (111000 * Real.cos (toRadians latitude))) g) :
    groups_by_location_db db latitude longitude radius
      = db.filter fun g =>
          decide (calculate_distance latitude longitude g.latitude g.longitude ≤ radius) := by
  unfold groups_by_location_db
  rw [List.filter_filter]
  refine List.filter_congr fun g hg => ?_
  by_cases hd : calculate_distance latitude longitude g.latitude g.longitude ≤ radius
  · simp [hd, decide_eq_true (hbox g hg hd)]
  · simp [hd]

/-- C3 amended: for a fixed entity set with no concurrent mutation, the
indexed (GEO) path and the bounding-box fallback path agree — ids AND
attributes — PROVIDED every stored group has a live snapshot equal to its
store row, the geo index holds the store coordinates, and the bounding box
covers every point within the radius; without the snapshot proviso the
indexed path silently drops candidates (see the counterexample). -/
theorem C3_index_agrees_with_fallback (db : List Group) (snaps : String → Option Group)
    (latitude longitude radius : ℝ)
    (hsnap : ∀ g ∈ db, snaps g.group_id = some g)
    (hbox : ∀ g ∈ db, calculate_distance latitude longitude g.latitude g.longitude ≤ radius →
      inBoundingBox latitude longitude (radius / 111000)
        (radius / (111000 * Real.cos (toRadians latitude))) g) :
    GroupCacheOperations.find_nearby_groups
        (db.map fun g => ⟨g.group_id, g.longitude, g.latitude⟩) snaps latitude longitude radius
      = groups_by_location_db db latitude longitude radius := by
  rw [find_nearby_groups_eq_filter snaps latitude longitude radius db hsnap,
    groups_by_location_db_eq_filter latitude longitude radius db hbox]

/-- C3 witness: a one-group store at the query point with a live snapshot —
the indexed path and the fallback path return the same one-element list. -/
theorem C3_index_agrees_with_fallback_witness :
    GroupCacheOperations.find_nearby_groups
        (([⟨"g1", "n", "l", 0, 0, "d", none, "u1", 0, 1⟩] : List Group).map
          fun g => ⟨g.group_id, g.longitude, g.latitude⟩)
        (fun id => if id = "g1" then some ⟨"g1", "n", "l", 0, 0, "d", none, "u1", 0, 1⟩ else none)
        0 0 100
      = groups_by_location_db [⟨"g1", "n", "l", 0, 0, "d", none, "u1", 0, 1⟩] 0 0 100 := by
  refine C3_index_agrees_with_fallback _ _ 0 0 100 ?_ ?_
  · intro g hg
    rw [List.mem_singleton] at hg
    subst hg
    simp
  · intro g hg _
    rw [List.mem_singleton] at hg
    subst hg
    refine ⟨?_, ?_, ?_, ?_⟩ <;> norm_num [toRadians_zero, Real.cos_zero]

/-- C3 counterexample: a group present in the geo index (at the query point)
but with no entity-cache snapshot: the indexed path returns the empty list
while the fallback bounding-box path returns the group — the two paths do
NOT return the same set of ids. -/
theorem C3_counterexample :
    GroupCacheOperations.find_nearby_groups [⟨"g1", 0, 0⟩] (fun _ => none) 0 0 100 = [] ∧
      (groups_by_location_db [⟨"g1", "n", "l", 0, 0, "d", none, "u1", 0, 1⟩] 0 0 100).map
        Group.group_id = ["g1"] ∧
      ([] : List String) ≠ ["g1"] := by
  refine ⟨?_, ?_, by simp⟩
  · unfold GroupCacheOperations.find_nearby_groups
    rw [List.filterMap_eq_nil_iff]
    intro hit _
    rfl
  · simp only [groups_by_location_db]
    have hb : inBoundingBox 0 0 ((100:ℝ) / 111000) ((100:ℝ) / (111000 * Real.cos (toRadians 0)))
        ⟨"g1", "n", "l", 0, 0, "d", none, "u1", 0, 1⟩ := by
      refine ⟨?_, ?_, ?_, ?_⟩ <;> norm_num [toRadians_zero, Real.cos_zero]
    have hd : calculate_distance 0 0
        (Group.latitude ⟨"g1", "n", "l", 0, 0, "d", none, "u1", 0, 1⟩)
        (Group.longitude ⟨"g1", "n", "l", 0, 0, "d", none, "u1", 0, 1⟩) ≤ (100:ℝ) := by
      show calculate_distance 0 0 (0:ℝ) (0:ℝ) ≤ (100:ℝ)
      rw [calculate_distance_self]
      norm_num
    rw [@List.filter_cons_of_pos Group
        (fun g => decide (inBoundingBox 0 0 (100 / 111000)
          (100 / (111000 * Real.cos (toRadians 0))) g))
        ⟨"g1", "n", "l", 0, 0, "d", none, "u1", 0, 1⟩ [] (decide_eq_true hb),
      List.filter_nil,
      @List.filter_cons_of_pos Group
        (fun g => decide (calculate_distance 0 0 g.latitude g.longitude ≤ 100))
        ⟨"g1", "n", "l", 0, 0, "d", none, "u1", 0, 1⟩ [] (decide_eq_true hd),
      List.filter_nil]
    rfl

/-- C4 amended: after `clear_group_cache(id)` the geo-index path can never
return that id again (the member is removed from the index, and surviving
snapshots carry their own ids) and the id-keyed snapshot is deleted; but the
coordinate-bucketed location result caches are NOT touched by the hook, so a
location query served from a bucket written before the deletion can still
return the id until the bucket's 120 s TTL expires (see the
counterexample). -/
theorem C4_invalidation_scope (st : GroupRedisState) (group_id : String)
    (hwf : ∀ id g, st.snaps id = some g → g.group_id = id) :
    (∀ latitude longitude radius,
      group_id ∉ (GroupCacheOperations.find_nearby_groups
          (clear_group_cache st group_id).geoIndex (clear_group_cache st group_id).snaps
          latitude longitude radius).map Group.group_id) ∧
    (clear_group_cache st group_id).snaps group_id = none ∧
    (clear_group_cache st group_id).locBuckets = st.locBuckets := by
  refine ⟨?_, by simp [clear_group_cache], rfl⟩
  intro latitude longitude radius hmem
  rw [List.mem_map] at hmem
  obtain ⟨g, hg, hgid⟩ := hmem
  unfold GroupCacheOperations.find_nearby_groups at hg
  rw [List.mem_filterMap] at hg
  obtain ⟨hit, hhit, hfg⟩ := hg
  unfold georadius at hhit
  rw [List.mem_filterMap] at hhit
  obtain ⟨e, he, hfe⟩ := hhit
  have hne : e.member ≠ group_id := by
    have h := List.of_mem_filter (show e ∈ List.filter
      (fun x => decide (x.member ≠ group_id)) st.geoIndex from he)
    exact of_decide_eq_true h
  have hmem_eq : hit.member = e.member := by
    simp only [] at hfe
    split at hfe
    · cases hfe
      rfl
    · exact Option.noConfusion hfe
  simp only [clear_group_cache] at hfg
  rw [hmem_eq, if_neg hne] at hfg
  cases hsn : st.snaps e.member with
  | none =>
    rw [hsn] at hfg
    exact Option.noConfusion hfg
  | some cached =>
    rw [hsn] at hfg
    simp only [] at hfg
    have hx := Option.some.inj hfg
    have hcg : cached.group_id = e.member := hwf _ _ hsn
    rw [← hx] at hgid
    split at hgid
    · exact hne (hcg ▸ (show cached.group_id = group_id from hgid))
    · exact hne (hcg ▸ (show cached.group_id = group_id from hgid))

/-- C4 witness: clearing a group on a concrete state deletes the snapshot key
and leaves the location buckets untouched. -/
theorem C4_invalidation_scope_witness :
    (clear_group_cache ⟨[], fun _ => none, fun _ => none⟩ "g1").snaps "g1" = none ∧
      (clear_group_cache ⟨[], fun _ => none, fun _ => none⟩ "g1").locBuckets =
        (⟨[], fun _ => none, fun _ => none⟩ : GroupRedisState).locBuckets :=
  (C4_invalidation_scope ⟨[], fun _ => none, fun _ => none⟩ "g1"
    (fun _ _ h => Option.noConfusion h)).2

/-- C4 counterexample: group g1 sits in a location bucket written before its
deletion; `clear_group_cache` removes only the geo-index entry and the
snapshot, so the very next `find_by_location` on that bucket still returns
g1 — a proximity search CAN return a deleted id from the bucketed result
cache. -/
theorem C4_counterexample :
    ((Group.find_by_location []
        (clear_group_cache
          ⟨[], fun _ => none,
            fun k => if k = ((0:ℝ), (0:ℝ), (120:ℝ))
              then some [⟨"g1", "n", "l", 0, 0.001, "d", none, "u1", 0, 1⟩] else none⟩
          "g1").locBuckets
        true 0 0 120).1.map Group.group_id) = ["g1"] := by
  show ((Group.find_by_location []
      (fun k => if k = ((0:ℝ), (0:ℝ), (120:ℝ))
        then some [⟨"g1", "n", "l", 0, 0.001, "d", none, "u1", 0, 1⟩] else none)
      true 0 0 120).1.map Group.group_id) = ["g1"]
  simp [Group.find_by_location, roundTo2_zero]

/-- C1 amended: on the database bounding-box paths (groups, users,
activities) every returned element lies within the requested radius as
measured by the exact Haversine distance from the query point; a result
served from a coordinate-bucketed cache is only guaranteed to lie within the
radius of the query point that ORIGINALLY populated the bucket (a point in
the same 0.01°-rounded bucket with the same radius) — not of the current
query point — and the Redis GEO users path checks no exact distance at all
(see the counterexample for both failure modes). -/
theorem C1_radius_bound :
    (∀ db latitude longitude radius (g : Group),
      g ∈ groups_by_location_db db latitude longitude radius →
      calculate_distance latitude longitude g.latitude g.longitude ≤ radius) ∧
    (∀ rows latitude longitude radius (u : NearbyUser),
      u ∈ nearby_users_compute rows latitude longitude radius →
      calculate_distance latitude longitude u.latitude u.longitude ≤ radius) ∧
    (∀ rows latitude longitude radius (a : UserActivity),
      a ∈ recent_activities_compute rows latitude longitude radius →
      calculate_distance latitude longitude a.latitude a.longitude ≤ radius) ∧
    (∀ db cache redisUp latitude longitude radius, LocCacheGood db cache →
      ∃ la lo, roundTo2 la = roundTo2 latitude ∧ roundTo2 lo = roundTo2 longitude ∧
        ∀ g ∈ (Group.find_by_location db cache redisUp latitude longitude radius).1,
          calculate_distance la lo g.latitude g.longitude ≤ radius) := by
  refine ⟨?_, ?_, ?_, ?_⟩
  · intro db latitude longitude radius g hg
    exact mem_groups_by_location_db hg
  · intro rows latitude longitude radius u hu
    simp only [nearby_users_compute, List.mem_mergeSort, List.mem_filterMap] at hu
    obtain ⟨row, _, heq⟩ := hu
    split at heq
    · cases heq
      assumption
    · exact Option.noConfusion heq
  · intro rows latitude longitude radius a ha
    simp only [recent_activities_compute, List.mem_mergeSort, List.mem_filterMap] at ha
    obtain ⟨row, _, heq⟩ := ha
    split at heq
    · cases heq
      assumption
    · exact Option.noConfusion heq
  · intro db cache redisUp latitude longitude radius hc
    obtain ⟨⟨la, lo, h1, h2, h3⟩, _⟩ :=
      find_by_location_spec db cache redisUp latitude longitude radius hc
    refine ⟨la, lo, h1, h2, fun g hg => ?_⟩
    rw [h3] at hg
    exact mem_groups_by_location_db hg

/-- C1 witness: with a group and a user location at the query point itself
and radius 0, each database path returns elements within the radius, and the
bucket-path guarantee holds for an empty well-formed cache. -/
theorem C1_radius_bound_witness :
    calculate_distance 0 0
        (Group.latitude ⟨"g1", "n", "l", 0, 0, "d", none, "u1", 0, 1⟩)
        (Group.longitude ⟨"g1", "n", "l", 0, 0, "d", none, "u1", 0, 1⟩) ≤ (0:ℝ) ∧
      calculate_distance 0 0
        (NearbyUser.latitude ⟨"u1", "n", 7, 0, 0, 0, none, "s"⟩)
        (NearbyUser.longitude ⟨"u1", "n", 7, 0, 0, 0, none, "s"⟩) ≤ (0:ℝ) ∧
      (∃ la lo, roundTo2 la = roundTo2 0 ∧ roundTo2 lo = roundTo2 0 ∧
        ∀ g ∈ (Group.find_by_location [] (fun _ => none) true 0 0 5).1,
          calculate_distance la lo g.latitude g.longitude ≤ 5) := by
  have hbox : inBoundingBox 0 0 ((0:ℝ) / 111000) ((0:ℝ) / (111000 * Real.cos (toRadians 0)))
      ⟨"g1", "n", "l", 0, 0, "d", none, "u1", 0, 1⟩ := by
    refine ⟨?_, ?_, ?_, ?_⟩ <;> norm_num [toRadians_zero, Real.cos_zero]
  have hd0 : calculate_distance 0 0
      (Group.latitude ⟨"g1", "n", "l", 0, 0, "d", none, "u1", 0, 1⟩)
      (Group.longitude ⟨"g1", "n", "l", 0, 0, "d", none, "u1", 0, 1⟩) ≤ (0:ℝ) := by
    show calculate_distance 0 0 (0:ℝ) (0:ℝ) ≤ (0:ℝ)
    rw [calculate_distance_self]
  have hmemg : (⟨"g1", "n", "l", 0, 0, "d", none, "u1", 0, 1⟩ : Group) ∈
      groups_by_location_db [⟨"g1", "n", "l", 0, 0, "d", none, "u1", 0, 1⟩] 0 0 0 := by
    simp only [groups_by_location_db]
    exact List.mem_filter.mpr ⟨List.mem_filter.mpr ⟨List.mem_singleton_self _,
      decide_eq_true hbox⟩, decide_eq_true hd0⟩
  have hfu : (if calculate_distance 0 0 (0:ℝ) (0:ℝ) ≤ (0:ℝ) then
      some (⟨"u1", "n", 7, 0, 0, calculate_distance 0 0 (0:ℝ) (0:ℝ), none, "s"⟩ : NearbyUser)
      else none) = some ⟨"u1", "n", 7, 0, 0, 0, none, "s"⟩ := by
    rw [calculate_distance_self, if_pos le_rfl]
  have hmemu : (⟨"u1", "n", 7, 0, 0, 0, none, "s"⟩ : NearbyUser) ∈
      nearby_users_compute [⟨"u1", "n", 0, 0, 7, some "s", none⟩] 0 0 0 := by
    unfold nearby_users_compute
    rw [List.mem_mergeSort]
    exact List.mem_filterMap.mpr ⟨⟨"u1", "n", 0, 0, 7, some "s", none⟩,
      List.mem_singleton_self _, hfu⟩
  exact ⟨C1_radius_bound.1 [⟨"g1", "n", "l", 0, 0, "d", none, "u1", 0, 1⟩] 0 0 0 _ hmemg,
    C1_radius_bound.2.1 [⟨"u1", "n", 0, 0, 7, some "s", none⟩] 0 0 0 _ hmemu,
    C1_radius_bound.2.2.2 [] (fun _ => none) true 0 0 5 fun k gs h => Option.noConfusion h⟩

/-- C1 counterexample: (bucket path) a query at (0, 0) with radius 120 m
caches the group at longitude 0.001° (≈ 111 m away); a second query at
(0, 0.004) — same 2-decimal bucket, same radius — is served that cached list,
yet the group is ≈ 334 m from the second query point, beyond the radius.
(GEO path) with the user GEORADIUS issued in km units, a user ≈ 2224 m away
is returned for a 200 m-radius search with no exact-distance recheck. -/
theorem C1_counterexample :
    ((Group.find_by_location [⟨"g1", "n", "l", 0, 0.001, "d", none, "u1", 0, 1⟩]
        (Group.find_by_location [⟨"g1", "n", "l", 0, 0.001, "d", none, "u1", 0, 1⟩]
          (fun _ => none) true 0 0 120).2
        true 0 0.004 120).1 = [⟨"g1", "n", "l", 0, 0.001, "d", none, "u1", 0, 1⟩] ∧
      120 < calculate_distance 0 0.004 0 0.001) ∧
    ((find_nearby_users_geo true [⟨"u1", 0.02, 0⟩]
        (fun _ => some ⟨"u1", "n", 0, 0, 0.02, 0, none, "s"⟩) 0 0 200).map
          NearbyUser.user_id = ["u1"] ∧
      200 < calculate_distance 0 0 0 0.02) := by
  have hπ : (3.14 : ℝ) < Real.pi := Real.pi_gt_d2
  have hπ' : Real.pi < 3.15 := Real.pi_lt_d2
  have e1 : calculate_distance 0 0 0 0.001 = 6371000 * ((0.001 - 0) * Real.pi / 180) :=
    calculate_distance_equator 0 0.001 (by norm_num) (by norm_num)
  have e2 : calculate_distance 0 0.001 0 0.004 = 6371000 * ((0.004 - 0.001) * Real.pi / 180) :=
    calculate_distance_equator 0.001 0.004 (by norm_num) (by norm_num)
  have e3 : calculate_distance 0 0 0 0.02 = 6371000 * ((0.02 - 0) * Real.pi / 180) :=
    calculate_distance_equator 0 0.02 (by norm_num) (by norm_num)
  have ha : calculate_distance 0 0 0 0.001 ≤ 120 := by rw [e1]; nlinarith
  have hsym : calculate_distance 0 0.004 0 0.001 = calculate_distance 0 0.001 0 0.004 :=
    calculate_distance_symm 0 0.004 0 0.001
  refine ⟨⟨?_, ?_⟩, ?_, ?_⟩
  · have hbox : inBoundingBox 0 0 ((120:ℝ) / 111000)
        ((120:ℝ) / (111000 * Real.cos (toRadians 0)))
        ⟨"g1", "n", "l", 0, 0.001, "d", none, "u1", 0, 1⟩ := by
      refine ⟨?_, ?_, ?_, ?_⟩ <;> norm_num [toRadians_zero, Real.cos_zero]
    have hdg : calculate_distance 0 0
        (Group.latitude ⟨"g1", "n", "l", 0, 0.001, "d", none, "u1", 0, 1⟩)
        (Group.longitude ⟨"g1", "n", "l", 0, 0.001, "d", none, "u1", 0, 1⟩) ≤ (120:ℝ) := by
      show calculate_distance 0 0 (0:ℝ) (0.001:ℝ) ≤ (120:ℝ)
      exact ha
    have hdb : groups_by_location_db [⟨"g1", "n", "l", 0, 0.001, "d", none, "u1", 0, 1⟩]
        0 0 120 = [⟨"g1", "n", "l", 0, 0.001, "d", none, "u1", 0, 1⟩] := by
      simp only [groups_by_location_db]
      rw [@List.filter_cons_of_pos Group
          (fun g => decide (inBoundingBox 0 0 (120 / 111000)
            (120 / (111000 * Real.cos (toRadians 0))) g))
          ⟨"g1", "n", "l", 0, 0.001, "d", none, "u1", 0, 1⟩ [] (decide_eq_true hbox),
        List.filter_nil,
        @List.filter_cons_of_pos Group
          (fun g => decide (calculate_distance 0 0 g.latitude g.longitude ≤ 120))
          ⟨"g1", "n", "l", 0, 0.001, "d", none, "u1", 0, 1⟩ [] (decide_eq_true hdg),
        List.filter_nil]
    have h004 : roundTo2 0.004 = 0 := roundTo2_eq_zero 0.004 (by norm_num) (by norm_num)
    have hstep1 : Group.find_by_location [⟨"g1", "n", "l", 0, 0.001, "d", none, "u1", 0, 1⟩]
        (fun _ => none) true 0 0 120 =
        ([⟨"g1", "n", "l", 0, 0.001, "d", none, "u1", 0, 1⟩],
          fun k => if k = ((0:ℝ), (0:ℝ), (120:ℝ))
            then some [⟨"g1", "n", "l", 0, 0.001, "d", none, "u1", 0, 1⟩] else none) := by
      simp [Group.find_by_location, roundTo2_zero, hdb]
    rw [hstep1]
    simp [Group.find_by_location, roundTo2_zero, h004]
  · rw [hsym, e2]
    nlinarith
  · have hkm : calculate_distance 0 0 (0:ℝ) (0.02:ℝ) ≤ 200 * 1000 := by
      rw [e3]; nlinarith
    unfold find_nearby_users_geo georadius
    rw [if_pos rfl]
    simp only [List.filterMap_cons, List.filterMap_nil]
    rw [if_pos hkm]
    simp [List.filterMap_cons]
  · rw [e3]
    nlinarith

end

end GudongBackend
